import Mathlib

/-!
Verification of the SnapSVG core glue layer (`src/src-rust/src/lib.rs`).

The repository is a thin Rust/WASM layer over the external `vtracer` and
`visioncortex` crates.  The shallow embedding below translates the code of
`lib.rs` itself: parameter mapping (`build_config`), the input-validation and
SVG-assembly logic of the three entry points, and the configuration records
handed to the external crates.  The external crates (image decoding,
`vtracer::convert`, the `visioncortex` cluster runner and curve fitter) are
not part of this repository's source; they appear as explicitly quantified
oracle functions, so every theorem holds for every possible behaviour of
those collaborators.

Machine integers are modelled as `Nat` / `Int`.  All Rust integer divisions
in this file have non-negative operands, where Rust's truncating division
agrees with Lean's `Int` division.  The target is wasm32, where `usize` is
32 bits: the `usize` products `w * h * 4` (the expected buffer length) and
`w * h` (the maximal cluster area) wrap at `2^32` in release builds, which
the embedding models by reducing those products modulo `USIZE_MOD = 2^32`
(stepwise wrapping of `(w*h)*4` equals a single final reduction).  Rust `u8`
pixel and colour components are `Fin 256`.  The two `f64` values that the glue code itself manipulates are
the constant `4.0` (modelled as the rational `4`) and the path offsets
(modelled as rationals, with `{:.2}` fixed-point formatting modelled by
`fmt2`, rounding ties to even as Rust float formatting does).
-/

namespace SnapSVG

/-- `visioncortex::Color`: four `u8` components. `Color::default()` is all
zeroes (derived `Default`). -/
structure Color where
  r : Fin 256
  g : Fin 256
  b : Fin 256
  a : Fin 256
  deriving DecidableEq

/-- Default colour, used for `key_color` in the runner configuration. -/
def Color.default : Color := ⟨0, 0, 0, 0⟩

/-- `vtracer::ColorMode`. -/
inductive ColorMode where
  | color
  | binary
  deriving DecidableEq

/-- `vtracer::Hierarchical`. -/
inductive Hierarchical where
  | stacked
  | cutout
  deriving DecidableEq

/-- `visioncortex::PathSimplifyMode`. -/
inductive PathSimplifyMode where
  | none
  | polygon
  | spline
  deriving DecidableEq

/-- `visioncortex::color_clusters::KeyingAction`. -/
inductive KeyingAction where
  | discard
  | keep
  deriving DecidableEq

/-- `ColorImage`: an RGBA byte buffer plus dimensions. -/
structure ColorImage where
  pixels : List (Fin 256)
  width : Nat
  height : Nat

/-- The internal `TracerConfig` struct of `lib.rs` (lines 49-59). -/
structure TracerConfig where
  filter_speckle : Nat
  color_precision : Int
  layer_difference : Int
  corner_threshold : Int
  length_threshold : ℚ
  max_iterations : Nat
  splice_threshold : Int
  path_precision : Option Nat
  mode : PathSimplifyMode

/-- `vtracer::Config` as populated by the glue code.  The only field the
code takes from `Config::default()` is `mode` (which defaults to
`Spline`). -/
structure Config where
  color_mode : ColorMode
  hierarchical : Hierarchical
  filter_speckle : Nat
  color_precision : Int
  layer_difference : Int
  mode : PathSimplifyMode
  corner_threshold : Int
  length_threshold : ℚ
  max_iterations : Nat
  splice_threshold : Int
  path_precision : Option Nat

/-- `visioncortex::color_clusters::RunnerConfig` as populated at
lib.rs lines 263-277. -/
structure RunnerConfig where
  diagonal : Bool
  hierarchical : Nat
  batch_size : Nat
  good_min_area : Nat
  good_max_area : Nat
  is_same_color_a : Int
  is_same_color_b : Int
  deepen_diff : Int
  hollow_neighbours : Nat
  key_color : Color
  keying_action : KeyingAction

/-- `visioncortex::color_clusters::HIERARCHICAL_MAX` (`u32::MAX`). -/
def HIERARCHICAL_MAX : Nat := 4294967295

/-- `2^32`: on the wasm32 target `usize` is 32 bits, so `usize` products in
the source wrap at this modulus (release-build wrapping semantics). -/
def USIZE_MOD : Nat := 4294967296

/-- `build_config` (lib.rs lines 61-88): maps the four user-facing knobs to
the internal `TracerConfig`.  A total function: every input is clamped,
never rejected.  The `u8` inputs are modelled as `Nat`; all divisions have
non-negative operands, so Rust's truncating `i32` division agrees with
Lean's `Int` division. -/
def build_config (color_count path_precision corner_threshold : Nat)
    (filter_speckle : Nat) : TracerConfig :=
  let color_count_clamped : Int := ((min (max color_count 2) 64 : Nat) : Int)
  let layer_diff : Int :=
    if color_count_clamped ≤ 8 then
      16 - (color_count_clamped - 2)
    else if color_count_clamped ≤ 24 then
      10 - (color_count_clamped - 9) / 3
    else
      4
  { filter_speckle := filter_speckle
    color_precision := 8
    layer_difference := min (max layer_diff 4) 16
    corner_threshold := (corner_threshold : Int)
    length_threshold := 4
    max_iterations := 10
    splice_threshold := min (max (125 - ((path_precision : Int) * 110 / 100)) 10) 135
    path_precision := some 2
    mode := PathSimplifyMode.spline }

/-- The `vtracer::Config` value built identically at lib.rs lines 123-135
and 192-204. -/
def build_vtracer_config (mode : ColorMode) (cfg : TracerConfig) : Config :=
  { color_mode := mode
    hierarchical := Hierarchical.stacked
    filter_speckle := cfg.filter_speckle
    color_precision := cfg.color_precision
    layer_difference := cfg.layer_difference
    mode := PathSimplifyMode.spline
    corner_threshold := cfg.corner_threshold
    length_threshold := cfg.length_threshold
    max_iterations := cfg.max_iterations
    splice_threshold := cfg.splice_threshold
    path_precision := cfg.path_precision }

/-- The `RunnerConfig` value built inline at lib.rs lines 263-277. -/
def build_runner_config (cfg : TracerConfig) (w h : Nat) : RunnerConfig :=
  { diagonal := cfg.layer_difference == 0
    hierarchical := HIERARCHICAL_MAX
    batch_size := 25600
    good_min_area := cfg.filter_speckle
    -- the usize product w * h wraps at 2^32 on wasm32
    good_max_area := w * h % USIZE_MOD
    is_same_color_a := min cfg.color_precision 7
    is_same_color_b := 1
    deepen_diff := cfg.layer_difference
    hollow_neighbours := 1
    key_color := Color.default
    keying_action := KeyingAction.discard }

/-- `fastrand::seed(s)`: replaces the previous generator state with `s`. -/
def fastrand_seed (s : Nat) (_prev : Nat) : Nat := s

/-- The error string built at lib.rs lines 173-176 and 247-250 for a
pixel-buffer length mismatch. -/
def lengthMismatchMsg (expected actual : Nat) : String :=
  "RGBA 数据长度不匹配: 期望 " ++ toString expected ++ " 字节, 实际 "
    ++ toString actual ++ " 字节"

/-- The error string wrapping a `vtracer::convert` failure
(lib.rs lines 138 and 207). -/
def vectorizeFailMsg (e : String) : String := "矢量化失败: " ++ e

/-- The error string wrapping an image-decode failure (lib.rs line 107). -/
def decodeFailMsg (e : String) : String := "图片解析失败: " ++ e

/-- The `<svg ...>` root element opening built by both the sequential and
the parallel composer (lib.rs lines 146 and 310). -/
def svgHeader (w h : Nat) : String :=
  "<svg xmlns=\"http://www.w3.org/2000/svg\" viewBox=\"0 0 " ++ toString w
    ++ " " ++ toString h ++ "\">"

/-- The sequential SVG document assembly (lib.rs lines 145-150 and 214-219):
header line, the path strings joined by newlines, then the closing tag with
no trailing newline. -/
def seqSvgDocument (w h : Nat) (paths : List String) : String :=
  svgHeader w h ++ "\n" ++ String.intercalate "\n" paths ++ "\n</svg>"

/-- Lowercase hexadecimal digit, as produced by Rust's `{:02x}`. -/
def hexDigit (n : Nat) : Char := "0123456789abcdef".data.getD n '0'

/-- Rust `format!("{:02x}", b)` for a `u8`: exactly two lowercase hex
digits. -/
def hex2 (n : Fin 256) : String :=
  String.mk [hexDigit ((n : Nat) / 16), hexDigit ((n : Nat) % 16)]

/-- The fill colour string `format!("#{:02x}{:02x}{:02x}", r, g, b)` built
at lib.rs line 313. -/
def colorHex (c : Color) : String := "#" ++ hex2 c.r ++ hex2 c.g ++ hex2 c.b

/-- Round a rational to the nearest integer, ties to even, matching how
Rust's float formatting rounds the exact value of an `f64`. -/
def roundTiesEven (q : ℚ) : Int :=
  let f := ⌊q⌋
  if q - f < 1/2 then f
  else if 1/2 < q - f then f + 1
  else if f % 2 = 0 then f else f + 1

/-- Two-digit zero-padded decimal rendering of a value below 100. -/
def pad2 (n : Nat) : String :=
  if n < 10 then "0" ++ toString n else toString n

/-- Rust `format!("{:.2}", x)` fixed-point formatting with two decimal
places, on the exact rational value of the float.  (A value in `(-1/200, 0)`
is rendered here as `0.00` rather than Rust's `-0.00`; no claim depends on
the sign of a rounded-to-zero offset.) -/
def fmt2 (q : ℚ) : String :=
  let c := roundTiesEven (q * 100)
  let sign := if c < 0 then "-" else ""
  let a := c.natAbs
  sign ++ toString (a / 100) ++ "." ++ pad2 (a % 100)

/-- One `<path .../>` output line of the parallel composer
(lib.rs lines 320-324), including the newline appended by `writeln!`. -/
def parPathLine (path_str : String) (c : Color) (ox oy : ℚ) : String :=
  "<path d=\"" ++ path_str ++ "\" fill=\"" ++ colorHex c
    ++ "\" transform=\"translate(" ++ fmt2 ox ++ "," ++ fmt2 oy ++ ")\"/>\n"

/-- Concatenation of a list of strings (the `writeln!` accumulation into the
`svg` buffer). -/
def strConcat : List String → String
  | [] => ""
  | s :: rest => s ++ strConcat rest

/-- The parallel composer (lib.rs lines 308-330): header line, one path line
per fitting result whose path string is non-empty, then `</svg>` with the
trailing newline appended by `writeln!`. -/
def compose_parallel (w h : Nat) (results : List (String × Color × ℚ × ℚ)) :
    String :=
  svgHeader w h ++ "\n"
    ++ strConcat (results.map fun r =>
        if r.1 = "" then "" else parPathLine r.1 r.2.1 r.2.2.1 r.2.2.2)
    ++ "</svg>\n"

/-- The type of the abstracted `vtracer::convert` collaborator: from the
seeded RNG state, the image and the configuration, either an error string or
the list of already-rendered `SvgPath` strings of the resulting file. -/
def ConvertFn : Type :=
  Nat → ColorImage → Config → Except String (List String)

/-- The type of the abstracted image decoder (`image::load_from_memory`
composed with `to_rgba8`): from the input bytes, either an error string or
`(width, height, pixels)`. -/
def DecodeFn : Type :=
  List (Fin 256) → Except String (Nat × Nat × List (Fin 256))

/-- The type of the abstracted segmentation stage (`Runner::new` followed by
`run` and `view`): from the seeded RNG state, the runner configuration and
the image, the `clusters_output` index sequence of the resulting view. -/
def RunnerFn : Type := Nat → RunnerConfig → ColorImage → List Nat

/-- The type of the abstracted per-cluster curve fitter
(`to_compound_path` + `residue_color` + `to_svg_string`): from the seeded
RNG state, a cluster index, and the fitting parameters taken from the
configuration (mode, corner threshold, length threshold, max iterations,
splice threshold, path precision), the rendered path string, the residue
colour, and the x and y offset returned by `to_svg_string`. -/
def FitFn : Type :=
  Nat → Nat → PathSimplifyMode → Int → ℚ → Nat → Int → Option Nat →
    String × Color × ℚ × ℚ

/-- The parallel fitting stage (lib.rs lines 284-306): the cluster indices
are `clusters_output` reversed, and Rayon's indexed `par_iter ... collect`
keeps results in index order, so the stage is the order-preserving map of
the fitter over the reversed index list.  The closure always returns
`Some`, so `filter_map` performs no filtering. -/
def par_path_results (fit : FitFn) (rng : Nat) (cfg : TracerConfig)
    (clusters_output : List Nat) : List (String × Color × ℚ × ℚ) :=
  clusters_output.reverse.map fun ci =>
    fit rng ci cfg.mode cfg.corner_threshold cfg.length_threshold
      cfg.max_iterations cfg.splice_threshold cfg.path_precision

/-- `trace_image_to_svg` (lib.rs lines 96-153): seed the RNG, decode the
image bytes, run `vtracer::convert`, assemble the sequential SVG document. -/
def trace_image_to_svg (decode : DecodeFn) (conv : ConvertFn) (rng0 : Nat)
    (image_bytes : List (Fin 256))
    (color_count path_precision corner_threshold : Nat)
    (filter_speckle : Nat) (color_mode : String) : Except String String :=
  let rng := fastrand_seed 1 rng0
  match decode image_bytes with
  | Except.error e => Except.error (decodeFailMsg e)
  | Except.ok (w, h, pixels) =>
    let color_image : ColorImage := ⟨pixels, w, h⟩
    let mode := if color_mode = "binary" then ColorMode.binary else ColorMode.color
    let cfg := build_config color_count path_precision corner_threshold filter_speckle
    match conv rng color_image (build_vtracer_config mode cfg) with
    | Except.error e => Except.error (vectorizeFailMsg e)
    | Except.ok paths => Except.ok (seqSvgDocument w h paths)

/-- `trace_rgba_to_svg` (lib.rs lines 157-222): seed the RNG, validate the
buffer length, run `vtracer::convert`, assemble the sequential SVG
document.  The expected length `w * h * 4` is a wasm32 `usize` product and
wraps at `2^32`. -/
def trace_rgba_to_svg (conv : ConvertFn) (rng0 : Nat)
    (rgba_data : List (Fin 256)) (width height : Nat)
    (color_count path_precision corner_threshold : Nat)
    (filter_speckle : Nat) (color_mode : String) : Except String String :=
  let rng := fastrand_seed 1 rng0
  let w := width
  let h := height
  let expected_len := w * h * 4 % USIZE_MOD
  if rgba_data.length ≠ expected_len then
    Except.error (lengthMismatchMsg expected_len rgba_data.length)
  else
    let color_image : ColorImage := ⟨rgba_data, w, h⟩
    let mode := if color_mode = "binary" then ColorMode.binary else ColorMode.color
    let cfg := build_config color_count path_precision corner_threshold filter_speckle
    match conv rng color_image (build_vtracer_config mode cfg) with
    | Except.error e => Except.error (vectorizeFailMsg e)
    | Except.ok paths => Except.ok (seqSvgDocument w h paths)

/-- `trace_rgba_parallel` (lib.rs lines 232-331): seed the RNG, validate the
buffer length, run the segmentation runner, fit every cluster (in reversed
`clusters_output` order, collected by index), and assemble the SVG with the
parallel composer.  The expected length `w * h * 4` is a wasm32 `usize`
product and wraps at `2^32`. -/
def trace_rgba_parallel (runner : RunnerFn) (fit : FitFn) (rng0 : Nat)
    (rgba_data : List (Fin 256)) (width height : Nat)
    (color_count path_precision corner_threshold : Nat)
    (filter_speckle : Nat) : Except String String :=
  let rng := fastrand_seed 1 rng0
  let w := width
  let h := height
  let expected_len := w * h * 4 % USIZE_MOD
  if rgba_data.length ≠ expected_len then
    Except.error (lengthMismatchMsg expected_len rgba_data.length)
  else
    let cfg := build_config color_count path_precision corner_threshold filter_speckle
    let color_image : ColorImage := ⟨rgba_data, w, h⟩
    let clusters_output := runner rng (build_runner_config cfg w h) color_image
    Except.ok (compose_parallel w h (par_path_results fit rng cfg clusters_output))

/-! ### Concrete collaborator instances used for witnesses

These are sample behaviours of the external collaborators, used to
instantiate the universally quantified theorems at concrete inputs. -/

/-- A `vtracer::convert` collaborator that succeeds with no paths (the
behaviour on an image with no retained clusters). -/
def conv0 : ConvertFn := fun _ _ _ => Except.ok []

/-- A segmentation collaborator that produces no clusters (the behaviour on
an empty image). -/
def runner0 : RunnerFn := fun _ _ _ => []

/-- A curve fitter that produces an empty path for every cluster. -/
def fit0 : FitFn := fun _ _ _ _ _ _ _ _ => ("", Color.default, 0, 0)

/-- A curve fitter that records the cluster index it was handed. -/
def fitIdx : FitFn := fun _ ci _ _ _ _ _ _ => (toString ci, Color.default, 0, 0)

/-! ### Helper lemmas -/

instance {ε α : Type} [DecidableEq ε] [DecidableEq α] :
    DecidableEq (Except ε α) := fun a b =>
  match a, b with
  | Except.error e, Except.error f =>
      if h : e = f then isTrue (by rw [h]) else isFalse (by simp [h])
  | Except.error _, Except.ok _ => isFalse (fun h => Except.noConfusion h)
  | Except.ok _, Except.error _ => isFalse (fun h => Except.noConfusion h)
  | Except.ok x, Except.ok y =>
      if h : x = y then isTrue (by rw [h]) else isFalse (by simp [h])

theorem lastChar_append_seq (s : String) :
    (s ++ "\n</svg>").data.getLast? = some '>' := by
  rw [String.data_append]
  rw [List.getLast?_append_of_ne_nil s.data (by decide)]
  decide

theorem lastChar_append_par (s : String) :
    (s ++ "</svg>\n").data.getLast? = some '\n' := by
  rw [String.data_append]
  rw [List.getLast?_append_of_ne_nil s.data (by decide)]
  decide

theorem seqSvgDocument_lastChar (w h : Nat) (paths : List String) :
    (seqSvgDocument w h paths).data.getLast? = some '>' :=
  lastChar_append_seq _

theorem compose_parallel_lastChar (w h : Nat)
    (results : List (String × Color × ℚ × ℚ)) :
    (compose_parallel w h results).data.getLast? = some '\n' :=
  lastChar_append_par _

theorem vectorizeFailMsg_head (e : String) :
    (vectorizeFailMsg e).data.head? = some '矢' := by
  unfold vectorizeFailMsg
  rw [String.data_append]
  rfl

theorem lengthMismatchMsg_head (x y : Nat) :
    (lengthMismatchMsg x y).data.head? = some 'R' := by
  unfold lengthMismatchMsg
  simp only [String.data_append, List.append_assoc]
  rfl

/-- The "vectorization failed" wrapper can never coincide with the
length-mismatch message: their first characters differ. -/
theorem vectorizeFailMsg_ne_lengthMismatchMsg (e : String) (x y : Nat) :
    vectorizeFailMsg e ≠ lengthMismatchMsg x y := by
  intro h
  have h1 := vectorizeFailMsg_head e
  rw [h, lengthMismatchMsg_head] at h1
  exact absurd h1 (by decide)

/-- Skipped empty strings in the composer loop are exactly a `filter`. -/
theorem strConcat_map_ite (l : List (String × Color × ℚ × ℚ)) :
    strConcat (l.map fun r =>
        if r.1 = "" then "" else parPathLine r.1 r.2.1 r.2.2.1 r.2.2.2)
      = strConcat ((l.filter fun r => r.1 ≠ "").map fun r =>
          parPathLine r.1 r.2.1 r.2.2.1 r.2.2.2) := by
  induction l with
  | nil => rfl
  | cons a l ih =>
    by_cases h : a.1 = ""
    · simp [List.filter_cons, h, strConcat, ih, String.empty_append]
    · simp [List.filter_cons, h, strConcat, ih]

theorem prefix_of_append2 (a b c : String) :
    a.data <+: ((a ++ b) ++ c).data := by
  rw [String.data_append, String.data_append, List.append_assoc]
  exact List.prefix_append _ _

theorem suffix_of_append (a b : String) :
    b.data <:+ (a ++ b).data := by
  rw [String.data_append]
  exact List.suffix_append _ _

theorem hexDigit_mem (n : Nat) (h : n < 16) :
    hexDigit n ∈ "0123456789abcdef".data := by
  interval_cases n <;> decide

/-- Inversion for the sequential RGBA entry point: a successful result is
the sequential document for some path list returned by the collaborator. -/
theorem trace_rgba_to_svg_ok (conv : ConvertFn) (rng : Nat)
    (rgba : List (Fin 256)) (w h cc pp ct fs : Nat) (cm : String) (s : String)
    (hs : trace_rgba_to_svg conv rng rgba w h cc pp ct fs cm = Except.ok s) :
    ∃ paths, s = seqSvgDocument w h paths := by
  simp only [trace_rgba_to_svg, fastrand_seed] at hs
  split at hs
  · exact Except.noConfusion hs
  · split at hs
    · exact Except.noConfusion hs
    · exact ⟨_, (Except.ok.injEq _ _ ▸ hs).symm⟩

/-- Inversion for the parallel entry point: a successful result is the
parallel composition of the ordered fitting results. -/
theorem trace_rgba_parallel_ok (runner : RunnerFn) (fit : FitFn) (rng : Nat)
    (rgba : List (Fin 256)) (w h cc pp ct fs : Nat) (s : String)
    (hs : trace_rgba_parallel runner fit rng rgba w h cc pp ct fs
        = Except.ok s) :
    s = compose_parallel w h (par_path_results fit 1
          (build_config cc pp ct fs)
          (runner 1 (build_runner_config (build_config cc pp ct fs) w h)
            ⟨rgba, w, h⟩)) := by
  simp only [trace_rgba_parallel, fastrand_seed] at hs
  split at hs
  · exact Except.noConfusion hs
  · exact ((Except.ok.injEq _ _).mp hs).symm

/-- Rust integer division by 3 of a non-negative value is the mathematical
floor of the rational quotient. -/
theorem intDiv3_eq_floor (x : Int) : x / 3 = ⌊((x : ℚ)) / 3⌋ := by
  rw [show ((3 : ℚ)) = (((3 : ℕ) : ℚ)) by norm_num,
    Rat.floor_intCast_div_natCast]
  norm_cast

/-! ### Claim theorems -/

/-- C2 counterexample: at `width = height = 65536` with an empty buffer,
the real length `0` differs from `width*height*4 = 2^34`, yet neither entry
point returns an error: the wasm32 `usize` product wraps to `0`, the check
passes, and a full SVG result is produced. -/
theorem length_check_overflow_counterexample :
    ([] : List (Fin 256)).length ≠ 65536 * 65536 * 4
    ∧ (trace_rgba_to_svg conv0 0 [] 65536 65536 0 0 0 0 "color").isOk = true
    ∧ (trace_rgba_parallel runner0 fit0 0 [] 65536 65536 0 0 0 0).isOk
        = true := by
  refine ⟨by decide, by decide, by decide⟩

/-- C2 amended: the buffer length is compared against the `usize` product
`width*height*4`, which wraps at `2^32` on the wasm32 target.  Whenever the
length differs from the wrapped product, both `trace_rgba_to_svg` and
`trace_rgba_parallel` return the length-mismatch error; when it equals the
wrapped product, neither entry point ever returns a length-mismatch error,
for any behaviour of the external collaborators.  In particular, as long as
`width*height*4 < 2^32` the original claim holds: any length other than
`width*height*4` (such as `width*height*4 - 1`) is answered with the
length-mismatch error. -/
theorem length_mismatch_error_handling (conv : ConvertFn) (runner : RunnerFn)
    (fit : FitFn) (rng : Nat) (rgba : List (Fin 256)) (w h cc pp ct fs : Nat)
    (cm : String) :
    (rgba.length ≠ w * h * 4 % USIZE_MOD →
      trace_rgba_to_svg conv rng rgba w h cc pp ct fs cm
          = Except.error (lengthMismatchMsg (w * h * 4 % USIZE_MOD) rgba.length)
        ∧ trace_rgba_parallel runner fit rng rgba w h cc pp ct fs
          = Except.error (lengthMismatchMsg (w * h * 4 % USIZE_MOD) rgba.length))
    ∧ (rgba.length = w * h * 4 % USIZE_MOD →
      ∀ x y : Nat,
        trace_rgba_to_svg conv rng rgba w h cc pp ct fs cm
            ≠ Except.error (lengthMismatchMsg x y)
          ∧ trace_rgba_parallel runner fit rng rgba w h cc pp ct fs
            ≠ Except.error (lengthMismatchMsg x y))
    ∧ (w * h * 4 < USIZE_MOD → rgba.length ≠ w * h * 4 →
      trace_rgba_to_svg conv rng rgba w h cc pp ct fs cm
          = Except.error (lengthMismatchMsg (w * h * 4) rgba.length)
        ∧ trace_rgba_parallel runner fit rng rgba w h cc pp ct fs
          = Except.error (lengthMismatchMsg (w * h * 4) rgba.length)) := by
  have main :
      (rgba.length ≠ w * h * 4 % USIZE_MOD →
        trace_rgba_to_svg conv rng rgba w h cc pp ct fs cm
            = Except.error
              (lengthMismatchMsg (w * h * 4 % USIZE_MOD) rgba.length)
          ∧ trace_rgba_parallel runner fit rng rgba w h cc pp ct fs
            = Except.error
              (lengthMismatchMsg (w * h * 4 % USIZE_MOD) rgba.length))
      ∧ (rgba.length = w * h * 4 % USIZE_MOD →
        ∀ x y : Nat,
          trace_rgba_to_svg conv rng rgba w h cc pp ct fs cm
              ≠ Except.error (lengthMismatchMsg x y)
            ∧ trace_rgba_parallel runner fit rng rgba w h cc pp ct fs
              ≠ Except.error (lengthMismatchMsg x y)) := by
    constructor
    · intro hne
      constructor
      · simp only [trace_rgba_to_svg, fastrand_seed]
        rw [if_pos hne]
      · simp only [trace_rgba_parallel, fastrand_seed]
        rw [if_pos hne]
    · intro heq x y
      constructor
      · simp only [trace_rgba_to_svg, fastrand_seed]
        rw [if_neg (fun hne => hne heq)]
        cases hconv : conv 1 ⟨rgba, w, h⟩
            (build_vtracer_config
              (if cm = "binary" then ColorMode.binary else ColorMode.color)
              (build_config cc pp ct fs)) with
        | error e =>
          intro hbad
          exact vectorizeFailMsg_ne_lengthMismatchMsg e x y
            ((Except.error.injEq _ _).mp hbad)
        | ok paths =>
          exact fun hbad => Except.noConfusion hbad
      · simp only [trace_rgba_parallel, fastrand_seed]
        rw [if_neg (fun hne => hne heq)]
        exact fun hbad => Except.noConfusion hbad
  refine ⟨main.1, main.2, ?_⟩
  intro hlt hne
  have hm : w * h * 4 % USIZE_MOD = w * h * 4 := Nat.mod_eq_of_lt hlt
  have hres := main.1 (by rw [hm]; exact hne)
  rw [hm] at hres
  exact hres

/-- C2 witness: a buffer of length `1*1*4 - 1 = 3` produces the
length-mismatch error in both entry points (via the wrapped-product guard
and via the non-overflow clause), and a buffer of length `4` is never
answered with a length-mismatch error. -/
theorem length_mismatch_error_handling_witness :
    (trace_rgba_to_svg conv0 0 [0, 0, 0] 1 1 0 0 0 0 "color"
        = Except.error "RGBA 数据长度不匹配: 期望 4 字节, 实际 3 字节"
      ∧ trace_rgba_parallel runner0 fit0 0 [0, 0, 0] 1 1 0 0 0 0
        = Except.error "RGBA 数据长度不匹配: 期望 4 字节, 实际 3 字节")
    ∧ (trace_rgba_to_svg conv0 0 [0, 0, 0, 0] 1 1 0 0 0 0 "color"
          ≠ Except.error (lengthMismatchMsg 4 4)
        ∧ trace_rgba_parallel runner0 fit0 0 [0, 0, 0, 0] 1 1 0 0 0 0
          ≠ Except.error (lengthMismatchMsg 4 4))
    ∧ (trace_rgba_to_svg conv0 0 [] 1 1 0 0 0 0 "color"
        = Except.error "RGBA 数据长度不匹配: 期望 4 字节, 实际 0 字节"
      ∧ trace_rgba_parallel runner0 fit0 0 [] 1 1 0 0 0 0
        = Except.error "RGBA 数据长度不匹配: 期望 4 字节, 实际 0 字节") := by
  have h1 := (length_mismatch_error_handling conv0 runner0 fit0 0 [0, 0, 0]
    1 1 0 0 0 0 "color").1 (by decide)
  have h2 := (length_mismatch_error_handling conv0 runner0 fit0 0 [0, 0, 0, 0]
    1 1 0 0 0 0 "color").2.1 (by decide) 4 4
  have h3 := (length_mismatch_error_handling conv0 runner0 fit0 0 []
    1 1 0 0 0 0 "color").2.2 (by decide) (by decide)
  exact ⟨⟨h1.1.trans (by decide), h1.2.trans (by decide)⟩, h2,
    h3.1.trans (by decide), h3.2.trans (by decide)⟩

/-- C3: `build_config` realises exactly the spec's parameter mapping:
`colorCount` is clamped to `[2,64]`; `layerDifference` is the three-branch
step-down function of the clamped count (with a true mathematical floor in
the middle branch), clamped to `[4,16]`; `cornerThreshold` passes through
unchanged; `lengthThreshold` is `4.0`; `maxIterations` is `10`; emitted
path precision is fixed at `2`.  The mapping is a total function: no input
is rejected. -/
theorem build_config_mapping_correct (cc pp ct fs : Nat) :
    2 ≤ ((min (max cc 2) 64 : Nat) : Int)
    ∧ ((min (max cc 2) 64 : Nat) : Int) ≤ 64
    ∧ (build_config cc pp ct fs).layer_difference
        = min (max (if ((min (max cc 2) 64 : Nat) : Int) ≤ 8 then
              16 - (((min (max cc 2) 64 : Nat) : Int) - 2)
            else if ((min (max cc 2) 64 : Nat) : Int) ≤ 24 then
              10 - ⌊((((min (max cc 2) 64 : Nat) : Int) : ℚ) - 9) / 3⌋
            else 4) 4) 16
    ∧ 4 ≤ (build_config cc pp ct fs).layer_difference
    ∧ (build_config cc pp ct fs).layer_difference ≤ 16
    ∧ (build_config cc pp ct fs).corner_threshold = (ct : Int)
    ∧ (build_config cc pp ct fs).length_threshold = 4
    ∧ (build_config cc pp ct fs).max_iterations = 10
    ∧ (build_config cc pp ct fs).path_precision = some 2 := by
  have hdiff : (build_config cc pp ct fs).layer_difference
      = min (max (if ((min (max cc 2) 64 : Nat) : Int) ≤ 8 then
            16 - (((min (max cc 2) 64 : Nat) : Int) - 2)
          else if ((min (max cc 2) 64 : Nat) : Int) ≤ 24 then
            10 - (((min (max cc 2) 64 : Nat) : Int) - 9) / 3
          else 4) 4) 16 := rfl
  refine ⟨by omega, by omega, ?_, ?_, ?_, rfl, rfl, rfl, rfl⟩
  · rw [hdiff]
    congr 2
    split_ifs with h1 h2
    · rfl
    · congr 1
      rw [intDiv3_eq_floor]
      congr 1
      push_cast
      ring
    · rfl
  · rw [hdiff]
    split_ifs <;> omega
  · rw [hdiff]
    split_ifs <;> omega

/-- C4: the splice threshold equals `clamp(125 - p*110/100, 10, 135)` with
integer division, and is antitone in the requested path precision on
`[0, 100]` (all other parameters held equal). -/
theorem splice_threshold_formula_antitone (cc ct fs pp1 pp2 : Nat)
    (h12 : pp1 ≤ pp2) (h100 : pp2 ≤ 100) :
    (build_config cc pp2 ct fs).splice_threshold
        ≤ (build_config cc pp1 ct fs).splice_threshold
    ∧ (build_config cc pp1 ct fs).splice_threshold
        = min (max (125 - (pp1 : Int) * 110 / 100) 10) 135
    ∧ (build_config cc pp2 ct fs).splice_threshold
        = min (max (125 - (pp2 : Int) * 110 / 100) 10) 135 := by
  refine ⟨?_, rfl, rfl⟩
  have e1 : (build_config cc pp1 ct fs).splice_threshold
      = min (max (125 - (pp1 : Int) * 110 / 100) 10) 135 := rfl
  have e2 : (build_config cc pp2 ct fs).splice_threshold
      = min (max (125 - (pp2 : Int) * 110 / 100) 10) 135 := rfl
  rw [e1, e2]
  omega

/-- C4 witness: the splice threshold at precision 100 does not exceed the
one at precision 0. -/
theorem splice_threshold_formula_antitone_witness :
    (build_config 0 100 0 0).splice_threshold
      ≤ (build_config 0 0 0 0).splice_threshold :=
  (splice_threshold_formula_antitone 0 0 0 0 100 (by decide) (by decide)).1

/-- C5: each entry point seeds the random generator with the constant `1`
before anything else, so its output does not depend on the ambient
generator state: two runs with the same inputs (and any two prior RNG
states) produce identical results, for every behaviour of the external
collaborators. -/
theorem rng_seed_determinism (decode : DecodeFn) (conv : ConvertFn)
    (runner : RunnerFn) (fit : FitFn) (rng rng' : Nat)
    (bytes rgba : List (Fin 256)) (w h cc pp ct fs : Nat) (cm : String) :
    trace_image_to_svg decode conv rng bytes cc pp ct fs cm
        = trace_image_to_svg decode conv rng' bytes cc pp ct fs cm
    ∧ trace_rgba_to_svg conv rng rgba w h cc pp ct fs cm
        = trace_rgba_to_svg conv rng' rgba w h cc pp ct fs cm
    ∧ trace_rgba_parallel runner fit rng rgba w h cc pp ct fs
        = trace_rgba_parallel runner fit rng' rgba w h cc pp ct fs :=
  ⟨rfl, rfl, rfl⟩

/-- C9 counterexample: the colour-similarity granularity handed to the
cluster runner is `7`, not the config's `colorPrecision` of `8`. -/
theorem runner_color_precision_counterexample :
    (build_runner_config (build_config 2 0 0 0) 1 1).is_same_color_a
      ≠ (build_config 2 0 0 0).color_precision := by
  decide

/-- C9 amended: the Parameter Mapper fixes `colorPrecision` at `8`, but the
runner configuration built by `trace_rgba_parallel` receives
`min(colorPrecision, 7) = 7` as its colour-similarity granularity (the
clustering library requires a value below 8). -/
theorem runner_color_precision_clamped (cc pp ct fs w h : Nat) :
    (build_config cc pp ct fs).color_precision = 8
    ∧ (build_runner_config (build_config cc pp ct fs) w h).is_same_color_a
        = min (build_config cc pp ct fs).color_precision 7
    ∧ (build_runner_config (build_config cc pp ct fs) w h).is_same_color_a
        = 7 :=
  ⟨rfl, rfl, rfl⟩

/-- C10: the diagonal-adjacency flag handed to the segmentation runner is
set only when `layer_difference = 0`, but `build_config` clamps
`layer_difference` to at least `4`, so the flag is `false` for every input
reachable through the public interface. -/
theorem diagonal_flag_unreachable (cc pp ct fs w h : Nat) :
    4 ≤ (build_config cc pp ct fs).layer_difference
    ∧ (build_runner_config (build_config cc pp ct fs) w h).diagonal
        = false := by
  have h4 : 4 ≤ (build_config cc pp ct fs).layer_difference := by
    simp only [build_config]
    split_ifs <;> omega
  refine ⟨h4, ?_⟩
  have hd : (build_runner_config (build_config cc pp ct fs) w h).diagonal
      = ((build_config cc pp ct fs).layer_difference == 0) := rfl
  rw [hd, beq_eq_false_iff_ne]
  omega

/-- C1 counterexample: on the empty (0×0) image with a valid (empty) pixel
buffer, with the collaborators producing no paths and no clusters, the
sequential and the parallel conversion do not return byte-identical
output. -/
theorem seq_par_identical_counterexample :
    trace_rgba_to_svg conv0 0 [] 0 0 0 0 0 0 "color"
      ≠ trace_rgba_parallel runner0 fit0 0 [] 0 0 0 0 0 0 := by
  decide

/-- C1 amended: the two conversions never return byte-identical strings:
for every behaviour of the external collaborators and all inputs, every
successful sequential output ends in `</svg>` (last byte `>`), while every
successful parallel output ends in a trailing newline after `</svg>`, so
the two success strings always differ. -/
theorem seq_par_outputs_never_identical (conv : ConvertFn) (runner : RunnerFn)
    (fit : FitFn) (rng rng' : Nat) (rgba rgba' : List (Fin 256))
    (w h cc pp ct fs w' h' cc' pp' ct' fs' : Nat) (cm : String) (s t : String)
    (hseq : trace_rgba_to_svg conv rng rgba w h cc pp ct fs cm = Except.ok s)
    (hpar : trace_rgba_parallel runner fit rng' rgba' w' h' cc' pp' ct' fs'
        = Except.ok t) :
    s ≠ t := by
  obtain ⟨paths, hsog⟩ :=
    trace_rgba_to_svg_ok conv rng rgba w h cc pp ct fs cm s hseq
  have ht :=
    trace_rgba_parallel_ok runner fit rng' rgba' w' h' cc' pp' ct' fs' t hpar
  intro hst
  have h1 : s.data.getLast? = some '>' := by
    rw [hsog]
    exact seqSvgDocument_lastChar _ _ _
  have h2 : t.data.getLast? = some '\n' := by
    rw [ht]
    exact compose_parallel_lastChar _ _ _
  rw [hst, h2] at h1
  exact absurd h1 (by decide)

/-- C1 witness: the amended theorem applied to the empty image, where the
sequential output and the parallel output are the concrete strings below. -/
theorem seq_par_outputs_never_identical_witness :
    ("<svg xmlns=\"http://www.w3.org/2000/svg\" viewBox=\"0 0 0 0\">\n\n</svg>"
        : String)
      ≠ "<svg xmlns=\"http://www.w3.org/2000/svg\" viewBox=\"0 0 0 0\">\n</svg>\n" :=
  seq_par_outputs_never_identical conv0 runner0 fit0 0 0 [] [] 0 0 0 0 0 0 0 0
    0 0 0 0 "color" _ _ (by decide) (by decide)

/-- C7 counterexample: a successful parallel conversion does not end with
`</svg>` — the `writeln!` call appends a trailing newline after it. -/
theorem svg_tail_counterexample :
    trace_rgba_parallel runner0 fit0 0 [] 0 0 0 0 0 0
        = Except.ok
          "<svg xmlns=\"http://www.w3.org/2000/svg\" viewBox=\"0 0 0 0\">\n</svg>\n"
      ∧ ¬ ("</svg>".data <:+
          ("<svg xmlns=\"http://www.w3.org/2000/svg\" viewBox=\"0 0 0 0\">\n</svg>\n"
            : String).data) := by
  constructor
  · decide
  · decide

/-- C7 amended: every successful parallel conversion begins with the
`<svg xmlns=... viewBox="0 0 w h">` root element, ends with `</svg>`
followed by a trailing newline, and its body is exactly one `<path>` line —
carrying a `d` attribute, a `#rrggbb` lowercase-hex `fill` attribute, and a
`transform="translate(x,y)"` with offsets rounded to 2 decimal places — per
fitting result with non-empty geometry; empty compound paths contribute
nothing. -/
theorem svg_output_structure (runner : RunnerFn) (fit : FitFn) (rng : Nat)
    (rgba : List (Fin 256)) (w h cc pp ct fs : Nat) (s : String)
    (hs : trace_rgba_parallel runner fit rng rgba w h cc pp ct fs
        = Except.ok s) :
    (svgHeader w h ++ "\n").data <+: s.data
    ∧ "</svg>\n".data <:+ s.data
    ∧ s.data.getLast? = some '\n'
    ∧ (∃ results, s = compose_parallel w h results
        ∧ s = svgHeader w h ++ "\n"
            ++ strConcat ((results.filter fun r => r.1 ≠ "").map fun r =>
                parPathLine r.1 r.2.1 r.2.2.1 r.2.2.2)
            ++ "</svg>\n")
    ∧ (∀ p c ox oy, parPathLine p c ox oy
        = "<path d=\"" ++ p ++ "\" fill=\"" ++ colorHex c
            ++ "\" transform=\"translate(" ++ fmt2 ox ++ "," ++ fmt2 oy
            ++ ")\"/>\n")
    ∧ (∀ c : Color, (colorHex c).data.head? = some '#'
        ∧ (colorHex c).data.length = 7
        ∧ ∀ ch ∈ (colorHex c).data.tail, ch ∈ "0123456789abcdef".data) := by
  have hshape := trace_rgba_parallel_ok runner fit rng rgba w h cc pp ct fs s hs
  refine ⟨?_, ?_, ?_, ⟨_, hshape, ?_⟩, fun p c ox oy => rfl, ?_⟩
  · rw [hshape]
    exact prefix_of_append2 (svgHeader w h ++ "\n") _ _
  · rw [hshape]
    exact suffix_of_append _ _
  · rw [hshape]
    exact compose_parallel_lastChar _ _ _
  · rw [hshape]
    unfold compose_parallel
    rw [strConcat_map_ite]
  · rintro ⟨r, g, b, a⟩
    refine ⟨rfl, rfl, ?_⟩
    intro ch hch
    have hr := r.isLt
    have hg := g.isLt
    have hb := b.isLt
    have hch2 : ch ∈ [hexDigit ((r : Nat) / 16), hexDigit ((r : Nat) % 16),
        hexDigit ((g : Nat) / 16), hexDigit ((g : Nat) % 16),
        hexDigit ((b : Nat) / 16), hexDigit ((b : Nat) % 16)] := hch
    simp only [List.mem_cons, List.not_mem_nil, or_false] at hch2
    rcases hch2 with h | h | h | h | h | h <;> subst h <;>
      exact hexDigit_mem _ (by omega)

/-- C7 witness: the structure theorem applied to the empty image; the
closing-tag-plus-newline suffix fact at the concrete output string. -/
theorem svg_output_structure_witness :
    "</svg>\n".data <:+
      ("<svg xmlns=\"http://www.w3.org/2000/svg\" viewBox=\"0 0 0 0\">\n</svg>\n"
        : String).data :=
  (svg_output_structure runner0 fit0 0 [] 0 0 0 0 0 0 _ (by decide)).2.1

/-- C8: the parallel fitting stage maps the fitter over exactly the
reverse of the segmentation's `clusters_output` sequence, index by index
(the result at position `i` is the fit of the cluster at position
`n - 1 - i`), and a successful `trace_rgba_parallel` run emits precisely
the composition of that ordered result sequence. -/
theorem cluster_order_preserved (runner : RunnerFn) (fit : FitFn) (rng : Nat)
    (cfg : TracerConfig) (clusters_output : List Nat) (i : Nat)
    (hi : i < clusters_output.length) :
    (par_path_results fit rng cfg clusters_output).length
        = clusters_output.length
    ∧ (par_path_results fit rng cfg clusters_output)[i]?
        = (clusters_output[clusters_output.length - 1 - i]?).map (fun ci =>
            fit rng ci cfg.mode cfg.corner_threshold cfg.length_threshold
              cfg.max_iterations cfg.splice_threshold cfg.path_precision)
    ∧ ∀ (rgba : List (Fin 256)) (w h cc pp ct fs : Nat),
        rgba.length = w * h * 4 % USIZE_MOD →
        trace_rgba_parallel runner fit rng rgba w h cc pp ct fs
          = Except.ok (compose_parallel w h (par_path_results fit 1
              (build_config cc pp ct fs)
              (runner 1 (build_runner_config (build_config cc pp ct fs) w h)
                ⟨rgba, w, h⟩))) := by
  refine ⟨by simp [par_path_results], ?_, ?_⟩
  · simp only [par_path_results]
    rw [List.getElem?_map, List.getElem?_reverse hi]
  · intro rgba w h cc pp ct fs hlen
    simp only [trace_rgba_parallel, fastrand_seed]
    rw [if_neg (fun hne => hne hlen)]

/-- C8 witness: with `clusters_output = [5, 7]`, the first fitting result
is the fit of cluster `7` (the last-created cluster). -/
theorem cluster_order_preserved_witness :
    (par_path_results fitIdx 1 (build_config 0 0 0 0) [5, 7])[0]?
      = (([5, 7] : List Nat)[([5, 7] : List Nat).length - 1 - 0]?).map
          (fun ci =>
            fitIdx 1 ci (build_config 0 0 0 0).mode
              (build_config 0 0 0 0).corner_threshold
              (build_config 0 0 0 0).length_threshold
              (build_config 0 0 0 0).max_iterations
              (build_config 0 0 0 0).splice_threshold
              (build_config 0 0 0 0).path_precision) :=
  (cluster_order_preserved runner0 fitIdx 1 (build_config 0 0 0 0) [5, 7] 0
    (by decide)).2.1

end SnapSVG
